import Mathlib

/-!
Verification of the client-side search/filter core of the personalBlog
repository against its natural-language specification.

The development shallowly embeds:
  - the `FilterableList` component of `src/components/SearchWrapper.tsx`
    (tag filtering, pagination, page navigation);
  - the `SearchModal` component (fuse query gate, grouping of results by
    collection, keyboard navigation state machine);
  - the view-counter API route `src/pages/api/views/[slug].ts`.

Machine numbers are modelled with `Nat`/`Int` (the JavaScript values involved
stay far below 2^53, where double arithmetic is exact on integers).
-/

namespace PersonalBlog

/-! ## Data model

`CollectionEntry<"blog"> | CollectionEntry<"projects">` carries a slug, its
collection, and front-matter data with a title and a tag list.  Only the
fields the components read are embedded.
-/

inductive Collection
  | blog
  | projects
  deriving DecidableEq, Repr

structure EntryData where
  title : String
  tags : List String
  deriving DecidableEq, Repr

structure Entry where
  slug : String
  collection : Collection
  data : EntryData
  deriving DecidableEq, Repr

/-! ## FilterableList (src/components/SearchWrapper.tsx)

```
const ITEMS_PER_PAGE = 6
createEffect(() => {
  const filtered = data.filter((entry) =>
    Array.from(filter()).every((value) =>
      entry.data.tags.some((tag) => tag.toLowerCase() === String(value).toLowerCase())))
  setItems(filtered)
  setCurrentPage(1)
})
const totalPages = createMemo(() => Math.ceil(items().length / itemsPerPage))
const paginatedItems = createMemo(() => {
  const start = (currentPage() - 1) * itemsPerPage
  return items().slice(start, start + itemsPerPage)
})
```

`filter()` is a JS `Set<string>`; `Array.from` lists its elements, so the
selected-tag set is embedded as the list of its elements.
-/

def ITEMS_PER_PAGE : Nat := 6

/-- `string.toLowerCase()` on the basic latin letters the tags use: lower-case
every character.  (Same mapping as `String.toLower`, but defined by structural
recursion so that concrete instances reduce inside the kernel.) -/
def toLowerCase (s : String) : String :=
  String.mk (s.data.map Char.toLower)

/-- The predicate of `data.filter`: every selected tag value occurs among the
entry's tags, compared lower-cased. -/
def passesFilter (selectedTags : List String) (entry : Entry) : Bool :=
  selectedTags.all fun value =>
    entry.data.tags.any fun tag => toLowerCase tag == toLowerCase value

/-- `data.filter(...)` of the recompute effect. -/
def filterEntries (data : List Entry) (selectedTags : List String) : List Entry :=
  data.filter (passesFilter selectedTags)

/-- State written by the recompute effect: `setItems(filtered)` then
`setCurrentPage(1)`. -/
structure FilterState where
  selectedTags : List String
  items : List Entry
  currentPage : Nat
  deriving DecidableEq, Repr

/-- The `createEffect` body, run on every change of the selected-tag set. -/
def recomputeOnFilterChange (data : List Entry) (selectedTags : List String) :
    FilterState :=
  { selectedTags := selectedTags
    items := filterEntries data selectedTags
    currentPage := 1 }

/-- `Math.ceil(count / itemsPerPage)` on naturals: for `itemsPerPage > 0` the
ceiling of the exact quotient is `(count + itemsPerPage - 1) / itemsPerPage`. -/
def totalPages (count itemsPerPage : Nat) : Nat :=
  (count + itemsPerPage - 1) / itemsPerPage

/-- `array.slice(start, stop)` for `0 ≤ start ≤ stop`: the elements at indices
`start` to `stop - 1`. -/
def jsSlice (l : List Entry) (start stop : Nat) : List Entry :=
  (l.drop start).take (stop - start)

/-- `items().slice(start, start + itemsPerPage)` with
`start = (currentPage() - 1) * itemsPerPage`. -/
def paginatedItems (items : List Entry) (currentPage itemsPerPage : Nat) :
    List Entry :=
  jsSlice items ((currentPage - 1) * itemsPerPage)
    ((currentPage - 1) * itemsPerPage + itemsPerPage)

/-- `canGoPrev = currentPage() > 1`. -/
def canGoPrev (currentPage : Nat) : Bool := currentPage > 1

/-- `canGoNext = currentPage() < totalPages()`. -/
def canGoNext (currentPage totalPagesVal : Nat) : Bool :=
  currentPage < totalPagesVal

/-- The Previous button: disabled unless `canGoPrev`; when clicked runs
`setCurrentPage((p) => Math.max(1, p - 1))`. -/
def clickPrev (currentPage : Nat) : Nat :=
  if canGoPrev currentPage then max 1 (currentPage - 1) else currentPage

/-- The Next button: disabled unless `canGoNext`; when clicked runs
`setCurrentPage((p) => Math.min(totalPages(), p + 1))`. -/
def clickNext (currentPage totalPagesVal : Nat) : Nat :=
  if canGoNext currentPage totalPagesVal then min totalPagesVal (currentPage + 1)
  else currentPage

/-- `toggleTag`, at the level of the JS `Set` it produces: remove the tag when
present, insert it when absent. -/
def toggleTag (prev : Finset String) (tag : String) : Finset String :=
  if tag ∈ prev then prev.erase tag else insert tag prev

/-! ### Spec-side definitions (for refinement comparisons) -/

/-- The spec's filtering rule, as written: an entry passes iff for every
selected tag `t` there exists a tag of the entry with
`lower(tag) == lower(t)`. -/
def specPasses (selectedTags : List String) (entry : Entry) : Prop :=
  ∀ t ∈ selectedTags, ∃ tag ∈ entry.data.tags, toLowerCase tag = toLowerCase t

/-- The spec's `totalPages = ceil(filteredCount / size)`, read as the ceiling
of the exact (rational) quotient. -/
def specTotalPages (count size : Nat) : Nat :=
  Nat.ceil ((count : ℚ) / (size : ℚ))

/-! ## SearchModal (src SearchModalContent component)

```
const fuseResults = createMemo(() => {
  if (query().length < 2) return []
  return fuse.search(query())
})
const results = createMemo(() => fuseResults().map((result) => result.item))
```

`fuse.search` belongs to the external fuse.js library; the embedding takes it
as an abstract ranked-search function and models only the component's own
logic around it.
-/

/-- A fuse.js `FuseResult` restricted to the field the component logic reads. -/
structure SearchResult where
  item : Entry
  deriving DecidableEq, Repr

/-- The `fuseResults` memo: empty below two characters, else the library
search. -/
def fuseResults (search : String → List SearchResult) (query : String) :
    List SearchResult :=
  if query.length < 2 then [] else search query

/-- The `results` memo: the plain entries, in fuse rank order. -/
def results (fuseRs : List SearchResult) : List Entry :=
  fuseRs.map (fun r => r.item)

/-- `result.item.collection === "blog" ? "Posts" : "Projects"`. -/
def categoryOf (r : SearchResult) : String :=
  if r.item.collection = Collection.blog then "Posts" else "Projects"

/-- Appending one result to its category's bucket, creating the bucket at the
end on first appearance — the behaviour of `groups[category].push(result)` on
a string-keyed JS object, whose keys keep insertion order. -/
def insertGrouped (groups : List (String × List SearchResult)) (category : String)
    (r : SearchResult) : List (String × List SearchResult) :=
  match groups with
  | [] => [(category, [r])]
  | (c, items) :: rest =>
    if c = category then (c, items ++ [r]) :: rest
    else (c, items) :: insertGrouped rest category r

/-- The `groupedResults` memo: results bucketed by category, buckets in
first-appearance order, each bucket preserving fuse rank order. -/
def groupedResults (fuseRs : List SearchResult) :
    List (String × List SearchResult) :=
  fuseRs.foldl (fun groups r => insertGrouped groups (categoryOf r) r) []

/-- The `categoryOffsets` memo: each category paired with the number of
results in the buckets before it. -/
def categoryOffsets (groups : List (String × List SearchResult)) :
    List (String × Nat) :=
  (groups.foldl
    (fun acc g => (acc.1 ++ [(g.1, acc.2)], acc.2 + g.2.length))
    (([] : List (String × Nat)), 0)).1

/-- The entry the render highlights at `selectedIndex = i`: the render marks
the item of category `c` at local index `li` selected iff
`categoryOffsets[c] + li = i`; as the offsets are the cumulative bucket
lengths, that item is found by walking the buckets in order. -/
def selectedInGroups (groups : List (String × List SearchResult)) (i : Nat) :
    Option SearchResult :=
  match groups with
  | [] => none
  | (_, items) :: rest =>
    if i < items.length then items[i]? else selectedInGroups rest (i - items.length)

/-- The bucket-concatenation (display) order of the grouped results. -/
def displayOrder (fuseRs : List SearchResult) : List SearchResult :=
  (groupedResults fuseRs).foldr (fun g acc => g.2 ++ acc) []

/-- The keys `handleInputKeyDown` distinguishes. -/
inductive Key
  | arrowDown
  | arrowUp
  | enter
  | other
  deriving DecidableEq, Repr

/-- The modal's mutable signals touched by the keyboard handler. -/
structure SearchState where
  query : String
  selectedIndex : Int
  isOpen : Bool
  deriving DecidableEq, Repr

/-- `list[i]` for a JS index expression of integer value `i`: `undefined`
(`none`) outside `0 ≤ i < list.length`. -/
def jsIndex (l : List Entry) (i : Int) : Option Entry :=
  if 0 ≤ i then l[i.toNat]? else none

/-- `result.collection === "blog" ? "/blog" : "/projects"`. -/
def basePath (c : Collection) : String :=
  if c = Collection.blog then "/blog" else "/projects"

/-- `navigateToResult`: sets `window.location.href` to
`basePath + "/" + slug` (returned as the navigation target) and closes the
modal. -/
def navigateToResult (result : Entry) (st : SearchState) :
    SearchState × Option String :=
  ({ st with isOpen := false },
   some (basePath result.collection ++ "/" ++ result.slug))

/-- `handleInputKeyDown` with `totalResults = results().length`.  (The arrow
branches are exercised only on a non-empty result list: JavaScript's `%` with
`totalResults = 0` produces `NaN`, which no claim involves.) -/
def handleInputKeyDown (resultsList : List Entry) (key : Key)
    (st : SearchState) : SearchState × Option String :=
  let totalResults : Int := resultsList.length
  match key with
  | Key.arrowDown =>
    ({ st with selectedIndex := (st.selectedIndex + 1) % totalResults }, none)
  | Key.arrowUp =>
    ({ st with selectedIndex := (st.selectedIndex - 1 + totalResults) % totalResults },
     none)
  | Key.enter =>
    match jsIndex resultsList st.selectedIndex with
    | some r => navigateToResult r st
    | none => (st, none)
  | Key.other => (st, none)

/-- One ArrowDown press (state part). -/
def stepDown (resultsList : List Entry) (st : SearchState) : SearchState :=
  (handleInputKeyDown resultsList Key.arrowDown st).1

/-- One ArrowUp press (state part). -/
def stepUp (resultsList : List Entry) (st : SearchState) : SearchState :=
  (handleInputKeyDown resultsList Key.arrowUp st).1

/-! ## View-counter API route (src/pages/api/views/[slug].ts)

The route delegates to `@vercel/kv` (Redis `GET`/`INCR`), an external
collaborator: the store is embedded abstractly as a key-value map together
with a flag for the failure case the route's `try/catch` handles.
-/

/-- A JSON body `{slug, views}` or `{error}`. -/
inductive ViewsBody
  | counts (slug : String) (views : Int)
  | failure (error : String)
  deriving DecidableEq, Repr

/-- A `Response`: its status and JSON body. -/
structure ViewsResponse where
  status : Nat
  body : ViewsBody
  deriving DecidableEq, Repr

/-- The external key-value store: its contents, and whether its operations
currently throw (the `catch` branches of the route). -/
structure KVStore where
  contents : String → Option Int
  failing : Bool

/-- `kv.get<number>(key)`: the stored value, or a thrown error. -/
def kvGet (kv : KVStore) (key : String) : Except Unit (Option Int) :=
  if kv.failing then Except.error () else Except.ok (kv.contents key)

/-- `kv.incr(key)` (Redis `INCR`): missing keys count as 0; returns the
incremented value and the updated store, or a thrown error. -/
def kvIncr (kv : KVStore) (key : String) : Except Unit (Int × KVStore) :=
  if kv.failing then Except.error ()
  else
    let newVal := ((kv.contents key).getD 0) + 1
    Except.ok (newVal,
      { kv with contents := fun k => if k = key then some newVal else kv.contents k })

/-- The `views:` key prefix used by both handlers. -/
def viewsKey (slug : String) : String := "views:" ++ slug

/-- Whether `if (!slug)` takes the 400 branch: the param is absent, or the
empty string (falsy in JavaScript). -/
def slugMissing (slug : Option String) : Bool :=
  match slug with
  | none => true
  | some s => s.isEmpty

/-- The route's `GET` handler. -/
def GET (kv : KVStore) (slug : Option String) : ViewsResponse :=
  match slug with
  | none => ⟨400, ViewsBody.failure "Slug is required"⟩
  | some s =>
    if s.isEmpty then ⟨400, ViewsBody.failure "Slug is required"⟩
    else
      match kvGet kv (viewsKey s) with
      | Except.ok v => ⟨200, ViewsBody.counts s (v.getD 0)⟩
      | Except.error _ => ⟨500, ViewsBody.failure "Failed to get views"⟩

/-- The route's `POST` handler; also returns the store it leaves behind. -/
def POST (kv : KVStore) (slug : Option String) : ViewsResponse × KVStore :=
  match slug with
  | none => (⟨400, ViewsBody.failure "Slug is required"⟩, kv)
  | some s =>
    if s.isEmpty then (⟨400, ViewsBody.failure "Slug is required"⟩, kv)
    else
      match kvIncr kv (viewsKey s) with
      | Except.ok (views, kv2) => (⟨200, ViewsBody.counts s views⟩, kv2)
      | Except.error _ => (⟨500, ViewsBody.failure "Failed to increment views"⟩, kv)

/-! ### Concrete sample inputs (used by witnesses and counterexamples) -/

def entryA : Entry := ⟨"a", Collection.blog, ⟨"A", ["x", "y"]⟩⟩

def entryB : Entry := ⟨"b", Collection.blog, ⟨"B", ["x"]⟩⟩

def entryP : Entry := ⟨"p", Collection.projects, ⟨"P", ["x"]⟩⟩

/-- A fuse ranking that interleaves the two collections: blog, project, blog. -/
def mixedFuseResults : List SearchResult := [⟨entryA⟩, ⟨entryP⟩, ⟨entryB⟩]

/-- A healthy store holding 3 views for slug `hello`. -/
def kvThree : KVStore :=
  ⟨fun k => if k = "views:hello" then some 3 else none, false⟩

/-- A store whose operations throw. -/
def kvBroken : KVStore := ⟨fun _ => none, true⟩

end PersonalBlog

namespace PersonalBlog

/-! ## Theorems about FilterableList -/

theorem passesFilter_iff (selectedTags : List String) (e : Entry) :
    passesFilter selectedTags e = true ↔ specPasses selectedTags e := by
  simp [passesFilter, specPasses, List.all_eq_true, List.any_eq_true]

/-- C3: an entry is in the filtered list iff it is in the input list and every
selected tag occurs (case-insensitively) among its tags; the filtered list is
a subsequence of the input, and the empty tag set filters nothing out. -/
theorem filter_and_semantics (data : List Entry) (selectedTags : List String) :
    (∀ e : Entry,
      e ∈ filterEntries data selectedTags ↔ e ∈ data ∧ specPasses selectedTags e) ∧
    (filterEntries data selectedTags).Sublist data ∧
    filterEntries data [] = data := by
  refine ⟨fun e => ?_, List.filter_sublist data, ?_⟩
  · rw [filterEntries, List.mem_filter, passesFilter_iff]
  · simp [filterEntries, passesFilter]

/-- C7: toggling the same tag twice restores the original selected-tag set. -/
theorem toggleTag_involutive (s : Finset String) (t : String) :
    toggleTag (toggleTag s t) t = s := by
  unfold toggleTag
  by_cases h : t ∈ s
  · simp [h, Finset.not_mem_erase, Finset.insert_erase h]
  · simp [h, Finset.erase_insert h]

/-- C2 (counterexample): when the tag change empties the filtered list, the
recompute resets `currentPage` to 1 while `ceil(0 / 6) = 0`, so the claimed
invariant `currentPage ≤ ceil(filteredCount / pageSize)` fails. -/
theorem currentPage_exceeds_totalPages_on_empty :
    (recomputeOnFilterChange [entryB] ["y"]).currentPage = 1 ∧
    totalPages (filterEntries [entryB] ["y"]).length ITEMS_PER_PAGE = 0 ∧
    ¬((recomputeOnFilterChange [entryB] ["y"]).currentPage ≤
        totalPages (filterEntries [entryB] ["y"]).length ITEMS_PER_PAGE) := by
  refine ⟨rfl, ?_, ?_⟩ <;> decide

/-- C2 (amended): after any filter change the recompute resets `currentPage`
to 1, and whenever the filtered list is non-empty this satisfies
`currentPage ≤ ceil(filteredCount / pageSize)`; when the filtered list is
empty, `totalPages = 0 < currentPage = 1`. -/
theorem currentPage_reset_bound (data : List Entry) (selectedTags : List String) :
    (recomputeOnFilterChange data selectedTags).currentPage = 1 ∧
    (0 < (filterEntries data selectedTags).length →
      (recomputeOnFilterChange data selectedTags).currentPage ≤
        totalPages (filterEntries data selectedTags).length ITEMS_PER_PAGE) := by
  refine ⟨rfl, fun h => ?_⟩
  show 1 ≤ totalPages (filterEntries data selectedTags).length ITEMS_PER_PAGE
  unfold totalPages ITEMS_PER_PAGE
  omega

/-- C2 witness: on a concrete non-empty filter result the reset page 1 is
within the page bound. -/
theorem currentPage_reset_bound_witness :
    0 < (filterEntries [entryA, entryB] ["x"]).length ∧
    (recomputeOnFilterChange [entryA, entryB] ["x"]).currentPage ≤
      totalPages (filterEntries [entryA, entryB] ["x"]).length ITEMS_PER_PAGE := by
  exact ⟨by decide, (currentPage_reset_bound [entryA, entryB] ["x"]).2 (by decide)⟩

theorem totalPages_le_iff (count size m : Nat) (hs : 0 < size) :
    totalPages count size ≤ m ↔ count ≤ size * m := by
  unfold totalPages
  rw [Nat.div_le_iff_le_mul_add_pred hs]
  omega

theorem totalPages_eq_specTotalPages (count size : Nat) (hs : 0 < size) :
    totalPages count size = specTotalPages count size := by
  have hsq : (0 : ℚ) < (size : ℚ) := by exact_mod_cast hs
  apply le_antisymm
  · rw [totalPages_le_iff count size _ hs]
    have h1 : (count : ℚ) / (size : ℚ) ≤ (specTotalPages count size : ℚ) :=
      Nat.le_ceil _
    have h2 : (count : ℚ) ≤ (specTotalPages count size : ℚ) * (size : ℚ) :=
      (div_le_iff₀ hsq).mp h1
    have h3 : count ≤ specTotalPages count size * size := by exact_mod_cast h2
    rwa [Nat.mul_comm] at h3
  · rw [specTotalPages, Nat.ceil_le, div_le_iff₀ hsq]
    have h1 : count ≤ size * totalPages count size :=
      (totalPages_le_iff count size _ hs).mp le_rfl
    have h1' : count ≤ totalPages count size * size := by
      rwa [Nat.mul_comm] at h1
    exact_mod_cast h1'

/-- C5: for page `p ≥ 1` and positive page size, the paginated slice is
exactly `filteredItems[(p-1)*size : p*size]`; `totalPages` is the ceiling of
`filteredCount / size` (so it is 0 on an empty filtered list and 1 when the
filtered count equals the page size), and the default page size is 6. -/
theorem pagination_formulas (items : List Entry) (page size : Nat)
    (hp : 1 ≤ page) (hs : 0 < size) :
    paginatedItems items page size =
      jsSlice items ((page - 1) * size) (page * size) ∧
    totalPages items.length size = specTotalPages items.length size ∧
    ITEMS_PER_PAGE = 6 ∧
    totalPages 0 size = 0 ∧
    totalPages size size = 1 := by
  refine ⟨?_, totalPages_eq_specTotalPages items.length size hs, rfl, ?_, ?_⟩
  · unfold paginatedItems jsSlice
    have hmul : page * size = (page - 1) * size + size := by
      obtain ⟨q, rfl⟩ := Nat.exists_eq_add_of_le hp
      have h1 : 1 + q - 1 = q := by omega
      rw [h1, Nat.add_mul, Nat.one_mul, Nat.add_comm]
    rw [hmul]
  · unfold totalPages
    have h0 : 0 + size - 1 = size - 1 := by omega
    rw [h0, Nat.div_eq_of_lt (by omega)]
  · unfold totalPages
    exact Nat.div_eq_of_lt_le (by omega) (by omega)

/-- C5 witness: concrete pagination of a two-entry list with page size 6. -/
theorem pagination_formulas_witness :
    1 ≤ 1 ∧ 0 < 6 ∧
    (paginatedItems [entryA, entryB] 1 6 = jsSlice [entryA, entryB] 0 6 ∧
     totalPages ([entryA, entryB] : List Entry).length 6 =
       specTotalPages ([entryA, entryB] : List Entry).length 6 ∧
     ITEMS_PER_PAGE = 6 ∧
     totalPages 0 6 = 0 ∧
     totalPages 6 6 = 1) := by
  refine ⟨by decide, by decide, ?_⟩
  have h := pagination_formulas [entryA, entryB] 1 6 (by decide) (by decide)
  simpa using h

/-- C6: the Previous request at page 1 and the Next request at or beyond the
last page leave `currentPage` unchanged (the buttons are disabled at the
boundary, and the clamped update is a no-op there as well). -/
theorem page_step_boundary_noop (currentPage totalPagesVal : Nat) :
    (currentPage = 1 → clickPrev currentPage = currentPage) ∧
    (totalPagesVal ≤ currentPage →
      clickNext currentPage totalPagesVal = currentPage) := by
  constructor
  · rintro rfl
    rfl
  · intro h
    unfold clickNext canGoNext
    simp [Nat.not_lt.mpr h]

/-- C6 witness: at page 1 of a 3-page list, Previous stays at 1; at page 3,
Next stays at 3. -/
theorem page_step_boundary_noop_witness :
    clickPrev 1 = 1 ∧ clickNext 3 3 = 3 := by
  exact ⟨(page_step_boundary_noop 1 3).1 rfl,
    (page_step_boundary_noop 3 3).2 (by decide)⟩

/-! ## Theorems about SearchModal -/

/-- C4: a query of fewer than two characters yields the empty result list,
whatever the underlying library search returns. -/
theorem short_query_returns_empty (search : String → List SearchResult)
    (query : String) (h : query.length < 2) :
    fuseResults search query = [] := by
  simp [fuseResults, h]

/-- C4 witness: the one-character query `r` yields no results even against a
search function that matches everything. -/
theorem short_query_returns_empty_witness :
    String.length "r" < 2 ∧
    fuseResults (fun _ => mixedFuseResults) "r" = [] :=
  ⟨by decide, short_query_returns_empty (fun _ => mixedFuseResults) "r" (by decide)⟩

theorem stepDown_selectedIndex (rs : List Entry) (st : SearchState) :
    (stepDown rs st).selectedIndex =
      (st.selectedIndex + 1) % (rs.length : Int) := rfl

theorem stepUp_selectedIndex (rs : List Entry) (st : SearchState) :
    (stepUp rs st).selectedIndex =
      (st.selectedIndex - 1 + rs.length) % (rs.length : Int) := rfl

theorem stepDown_iterate (rs : List Entry) (st : SearchState) (k : Nat)
    (h0 : st.selectedIndex = 0) :
    ((stepDown rs)^[k] st).selectedIndex = (k : Int) % (rs.length : Int) := by
  induction k with
  | zero => simpa using h0
  | succ k ih =>
    rw [Function.iterate_succ_apply', stepDown_selectedIndex, ih]
    push_cast
    rw [Int.emod_add_emod]

/-- C8: with `n ≥ 1` results, ArrowDown and ArrowUp move `selectedIndex` by
`+1` and `-1` modulo `n` — stepping plainly inside the range and wrapping at
both ends — and `n` ArrowDown presses from index 0 return it to 0. -/
theorem arrow_navigation_wraps (rs : List Entry) (st : SearchState)
    (hn : 1 ≤ rs.length) (h0 : st.selectedIndex = 0) :
    ((stepDown rs)^[rs.length] st).selectedIndex = 0 ∧
    (stepUp rs st).selectedIndex = (rs.length : Int) - 1 ∧
    (∀ st2 : SearchState, st2.selectedIndex = (rs.length : Int) - 1 →
      (stepDown rs st2).selectedIndex = 0) ∧
    (∀ j : Int, 0 ≤ j → j + 1 < (rs.length : Int) →
      ∀ st3 : SearchState, st3.selectedIndex = j →
        (stepDown rs st3).selectedIndex = j + 1) ∧
    (∀ j : Int, 0 < j → j < (rs.length : Int) →
      ∀ st4 : SearchState, st4.selectedIndex = j →
        (stepUp rs st4).selectedIndex = j - 1) := by
  have hn' : (1 : Int) ≤ (rs.length : Int) := by exact_mod_cast hn
  refine ⟨?_, ?_, ?_, ?_, ?_⟩
  · rw [stepDown_iterate rs st rs.length h0, Int.emod_self]
  · rw [stepUp_selectedIndex, h0]
    have h1 : (0 : Int) - 1 + (rs.length : Int) = (rs.length : Int) - 1 := by ring
    rw [h1, Int.emod_eq_of_lt (by omega) (by omega)]
  · intro st2 h2
    rw [stepDown_selectedIndex, h2]
    have h1 : (rs.length : Int) - 1 + 1 = (rs.length : Int) := by ring
    rw [h1, Int.emod_self]
  · intro j hj0 hj1 st3 h3
    rw [stepDown_selectedIndex, h3, Int.emod_eq_of_lt (by omega) hj1]
  · intro j hj0 hj1 st4 h4
    rw [stepUp_selectedIndex, h4]
    have h1 : j - 1 + (rs.length : Int) = j - 1 + (rs.length : Int) * 1 := by ring
    rw [h1, Int.add_mul_emod_self_left, Int.emod_eq_of_lt (by omega) (by omega)]

/-- C8 witness: on a two-result list, two ArrowDown presses from index 0
return to index 0, and one ArrowUp from 0 wraps to the last index. -/
theorem arrow_navigation_wraps_witness :
    1 ≤ ([entryA, entryB] : List Entry).length ∧
    ((stepDown [entryA, entryB])^[([entryA, entryB] : List Entry).length]
        ⟨"re", 0, true⟩).selectedIndex = 0 ∧
    (stepUp [entryA, entryB] ⟨"re", 0, true⟩).selectedIndex =
      (([entryA, entryB] : List Entry).length : Int) - 1 := by
  have h := arrow_navigation_wraps [entryA, entryB] ⟨"re", 0, true⟩ (by decide) rfl
  exact ⟨by decide, h.1, h.2.1⟩

/-- C10: when `results()[selectedIndex()]` is `undefined` — in particular on
an empty result list — Enter does nothing: no navigation is emitted and the
whole modal state (query, selection, openness) is unchanged. -/
theorem enter_no_result_noop (rs : List Entry) (st : SearchState)
    (h : jsIndex rs st.selectedIndex = none) :
    handleInputKeyDown rs Key.enter st = (st, none) := by
  simp [handleInputKeyDown, h]

/-- C10 witness: Enter on the empty result list leaves the open modal as it
is and navigates nowhere. -/
theorem enter_no_result_noop_witness :
    jsIndex [] (0 : Int) = none ∧
    handleInputKeyDown [] Key.enter ⟨"zz", 0, true⟩ =
      (⟨"zz", 0, true⟩, none) :=
  ⟨by decide, enter_no_result_noop [] ⟨"zz", 0, true⟩ (by decide)⟩

theorem selectedInGroups_eq_flatten (groups : List (String × List SearchResult))
    (i : Nat) :
    selectedInGroups groups i = (groups.foldr (fun g acc => g.2 ++ acc) [])[i]? := by
  induction groups generalizing i with
  | nil => simp [selectedInGroups]
  | cons g rest ih =>
    rw [selectedInGroups, List.foldr_cons]
    by_cases h : i < g.2.length
    · rw [if_pos h, List.getElem?_append, if_pos h]
    · rw [if_neg h, ih, List.getElem?_append, if_neg h]

/-- C1 (the code at the failing input): with fuse-ranked results
[blog `a`, project `p`, blog `b`] and `selectedIndex = 1`, the Posts bucket
holds `a, b` at offset 0 and the Projects bucket holds `p` at offset 2, so
the render highlights blog `b` at global index 1; Enter, however, indexes the
ungrouped fuse-order list and navigates to project `p` (`/projects/p`) — a
different entry — while closing the modal. -/
theorem enter_targets_fuse_order_not_display_order :
    groupedResults mixedFuseResults =
      [("Posts", [⟨entryA⟩, ⟨entryB⟩]), ("Projects", [⟨entryP⟩])] ∧
    categoryOffsets (groupedResults mixedFuseResults) =
      [("Posts", 0), ("Projects", 2)] ∧
    (selectedInGroups (groupedResults mixedFuseResults) 1).map (fun r => r.item) =
      some entryB ∧
    handleInputKeyDown (results mixedFuseResults) Key.enter ⟨"xx", 1, true⟩ =
      (⟨"xx", 1, false⟩, some ("/projects/p")) ∧
    entryB ≠ entryP := by
  refine ⟨?_, ?_, ?_, ?_, ?_⟩ <;> decide

/-! ## Theorems about the view-counter API route -/

/-- C9: with a non-empty slug and a working store, GET answers 200 with the
stored count (0 for an absent key) and POST answers 200 with the incremented
count, which is also what the store then holds; with the slug missing both
answer 400; with a throwing store both answer 500. -/
theorem views_api_contract (kv : KVStore) (s : String) :
    (¬s.isEmpty = true → kv.failing = false →
      GET kv (some s) =
        ⟨200, ViewsBody.counts s (((kv.contents (viewsKey s)).getD 0))⟩ ∧
      (POST kv (some s)).1 =
        ⟨200, ViewsBody.counts s (((kv.contents (viewsKey s)).getD 0) + 1)⟩ ∧
      (POST kv (some s)).2.contents (viewsKey s) =
        some (((kv.contents (viewsKey s)).getD 0) + 1)) ∧
    (GET kv none).status = 400 ∧
    (POST kv none).1.status = 400 ∧
    (¬s.isEmpty = true → kv.failing = true →
      (GET kv (some s)).status = 500 ∧ (POST kv (some s)).1.status = 500) := by
  refine ⟨fun hs hf => ?_, rfl, rfl, fun hs hf => ?_⟩
  · rw [Bool.not_eq_true] at hs
    refine ⟨?_, ?_, ?_⟩ <;>
      simp [GET, POST, kvGet, kvIncr, hs, hf]
  · rw [Bool.not_eq_true] at hs
    refine ⟨?_, ?_⟩ <;>
      simp [GET, POST, kvGet, kvIncr, hs, hf]

/-- C9 witness: concrete store with 3 views for `hello` — GET reports 3, POST
reports and stores 4; missing slug gives 400; a broken store gives 500. -/
theorem views_api_contract_witness :
    (GET kvThree (some "hello") = ⟨200, ViewsBody.counts "hello" 3⟩ ∧
     (POST kvThree (some "hello")).1 = ⟨200, ViewsBody.counts "hello" 4⟩ ∧
     (POST kvThree (some "hello")).2.contents (viewsKey "hello") = some 4) ∧
    (GET kvThree none).status = 400 ∧
    (GET kvBroken (some "hello")).status = 500 ∧
    (POST kvBroken (some "hello")).1.status = 500 := by
  have h1 := (views_api_contract kvThree "hello").1 (by decide) rfl
  have h2 := views_api_contract kvThree "hello"
  have h3 := (views_api_contract kvBroken "hello").2.2.2 (by decide) rfl
  exact ⟨h1, h2.2.1, h3.1, h3.2⟩

end PersonalBlog
